import Mathlib

/-!
Shallow embedding of the procurement-workflow logic of next_custom_app
(files next_custom_app/utils/procurement_workflow.py,
next_custom_app/utils/po_quantity_control.py and
next_custom_app/doctype/rfq_supplier_rule/rfq_supplier_rule.py).
Documents of the host store are modelled as records in a list; every
validator returns in the Except monad, the error constructor standing for
the frappe.throw call of the corresponding source branch.  Quantities are
modelled as integers.
-/

/-- Line item of a procurement document.  The fields ordered_qty and
remaining_qty are the custom fields that po_quantity_control adds to
Request for Quotation Item; they default to 0 on every other doctype. -/
structure LineItem where
  item_code : String
  qty : Int
  rate : Int := 0
  ordered_qty : Int := 0
  remaining_qty : Int := 0
deriving DecidableEq, Repr

/-- Row of the procurement_links child table (Procurement Document Link). -/
structure LinkEdge where
  source_doctype : String
  source_docname : String
  target_doctype : String
  target_docname : String
  link_date : Nat
deriving DecidableEq, Repr

/-- A document of the host store.  docstatus is 0 (draft), 1 (submitted) or
2 (cancelled); source_doctype and source_name model the custom fields
procurement_source_doctype and procurement_source_name; links models the
procurement_links child table; suppliers models the supplier list of a
Request for Quotation. -/
structure Doc where
  doctype : String
  name : String
  docstatus : Nat := 0
  source_doctype : Option String := none
  source_name : Option String := none
  items : List LineItem := []
  links : List LinkEdge := []
  supplier : Option String := none
  suppliers : List String := []
deriving DecidableEq, Repr

/-- Validation errors raised by frappe.throw in the modelled code paths,
plus notFound for an uncaught frappe.DoesNotExistError. -/
inductive PErr where
  | bothOrNeither
  | wrongSourceType (expected actual : String)
  | invalidItem (code : String)
  | qtyExceeded (code : String)
  | itemNotInSource (code : String)
  | supplierNotInRFQ (supplier : String)
  | supplierMismatch (expected actual : String)
  | rfqQtyExceeded (code : String) (dynamicConsumed : Int)
  | cannotCancel (groups : List (String × List String))
  | notFound (dt dn : String)
deriving DecidableEq, Repr

deriving instance DecidableEq for Except

/-- Lookup of frappe.get_doc and frappe.db.exists: the first record of the
store with the given doctype and name. -/
def get_doc? (db : List Doc) (dt dn : String) : Option Doc :=
  db.find? fun d => d.doctype == dt && d.name == dn

/-- Dictionary items_field_map of get_items_field_name. -/
def items_field_map : List (String × String) :=
  [("Material Request", "items"),
   ("Purchase Requisition", "items"),
   ("Request for Quotation", "items"),
   ("Supplier Quotation", "items"),
   ("Purchase Order", "items"),
   ("Purchase Receipt", "items"),
   ("Purchase Invoice", "items")]

/-- get_items_field_name: dict lookup returning the line-item field of a
procurement doctype, none for any other doctype. -/
def get_items_field_name (dt : String) : Option String :=
  (items_field_map.find? fun p => p.1 == dt).map (·.2)

/-- Sum of the qty fields of all lines of a document carrying the given
item code (one document may hold several rows of one code). -/
def itemQtyInDoc (d : Doc) (code : String) : Int :=
  ((d.items.filter fun it => it.item_code == code).map (·.qty)).sum

/-- Filter used by get_consumed_quantities_detailed: non-cancelled documents
of the target doctype whose procurement source is the given document, the
optional excluded name (an in-place update) removed. -/
def isConsumingSibling (srcDt srcName tgtDt : String) (excludeDoc : Option String)
    (d : Doc) : Bool :=
  d.doctype == tgtDt && d.source_doctype == some srcDt && d.source_name == some srcName &&
    d.docstatus != 2 &&
    (match excludeDoc with
     | some e => d.name != e
     | none => true)

/-- Total of the per-item map returned by get_consumed_quantities_detailed
(and get_consumed_quantities): quantity of the item code consumed by the
sibling documents; 0 when the item appears in no sibling. -/
def get_consumed_qty (db : List Doc) (srcDt srcName tgtDt : String)
    (excludeDoc : Option String) (code : String) : Int :=
  ((db.filter (isConsumingSibling srcDt srcName tgtDt excludeDoc)).map
    fun d => itemQtyInDoc d code).sum

/-- validate_supplier_in_rfq: a Supplier Quotation may only name a supplier
invited on the source RFQ.  A missing RFQ is logged and swallowed. -/
def validate_supplier_in_rfq (db : List Doc) (doc : Doc) (srcName : String) :
    Except PErr Unit :=
  match doc.supplier with
  | none => .ok ()
  | some s =>
    match get_doc? db "Request for Quotation" srcName with
    | none => .ok ()
    | some rfq => if s ∈ rfq.suppliers then .ok () else .error (.supplierNotInRFQ s)

/-- Tracking-source resolution of validate_quantity_limits: a Purchase Order
sourced from a Supplier Quotation that itself has a Request for Quotation
source is re-rooted to that RFQ; the RFQ is then fetched (an uncaught
DoesNotExistError when absent).  Every other document keeps its immediate
source. -/
def resolveTracking (db : List Doc) (doc : Doc) (sdt sname : String) (src0 : Doc) :
    Except PErr (String × String × Doc) :=
  if doc.doctype = "Purchase Order" ∧ sdt = "Supplier Quotation" then
    match src0.source_doctype, src0.source_name with
    | some srdt, some rfqName =>
      if srdt = "Request for Quotation" then
        match get_doc? db "Request for Quotation" rfqName with
        | none => .error (.notFound "Request for Quotation" rfqName)
        | some rfq => .ok ("Request for Quotation", rfqName, rfq)
      else .ok (sdt, sname, src0)
    | _, _ => .ok (sdt, sname, src0)
  else .ok (sdt, sname, src0)

/-- Per-item loop of validate_quantity_limits: the first source line of the
item code is the declared quantity; a missing code throws Invalid Item; a
requested quantity above declared minus consumed throws Quantity Exceeded. -/
def check_quantity_items (db : List Doc) (tdt tname tgtDt : String)
    (excludeDoc : Option String) (srcItems : List LineItem) :
    List LineItem → Except PErr Unit
  | [] => .ok ()
  | it :: rest =>
    match srcItems.find? (fun s => s.item_code == it.item_code) with
    | none => .error (.invalidItem it.item_code)
    | some s =>
      if it.qty > s.qty - get_consumed_qty db tdt tname tgtDt excludeDoc it.item_code then
        .error (.qtyExceeded it.item_code)
      else check_quantity_items db tdt tname tgtDt excludeDoc srcItems rest

/-- validate_quantity_limits of procurement_workflow.py.  isNew models
doc.is_new(); when false the document name is excluded from the consumed
totals.  Skips documents without a full source pair and documents that are
themselves a Request for Quotation; validates the supplier of a Supplier
Quotation sourced from an RFQ; re-roots a Purchase Order sourced from a
Supplier Quotation to the originating RFQ. -/
def validate_quantity_limits (db : List Doc) (doc : Doc) (isNew : Bool) :
    Except PErr Unit :=
  match doc.source_doctype, doc.source_name with
  | some sdt, some sname =>
    if doc.doctype = "Request for Quotation" then .ok ()
    else
      match (if doc.doctype = "Supplier Quotation" ∧ sdt = "Request for Quotation" then
               validate_supplier_in_rfq db doc sname
             else .ok ()) with
      | .error e => .error e
      | .ok _ =>
        match get_doc? db sdt sname with
        | none => .error (.notFound sdt sname)
        | some src0 =>
          match resolveTracking db doc sdt sname src0 with
          | .error e => .error e
          | .ok (tdt, tname, tsrc) =>
            match get_items_field_name sdt, get_items_field_name doc.doctype with
            | some _, some _ =>
              check_quantity_items db tdt tname doc.doctype
                (if isNew then none else some doc.name) tsrc.items doc.items
            | _, _ => .ok ()
  | _, _ => .ok ()

/-- Per-item loop of validate_items_against_source. -/
def check_items_exist (codes : List String) : List LineItem → Except PErr Unit
  | [] => .ok ()
  | it :: rest =>
    if it.item_code ∈ codes then check_items_exist codes rest
    else .error (.itemNotInSource it.item_code)

/-- validate_items_against_source: every item code of the document must
appear among the items of its immediate source document. -/
def validate_items_against_source (db : List Doc) (doc : Doc) : Except PErr Unit :=
  match doc.source_doctype, doc.source_name with
  | some sdt, some sname =>
    match get_doc? db sdt sname with
    | none => .error (.notFound sdt sname)
    | some src =>
      match get_items_field_name sdt, get_items_field_name doc.doctype with
      | some _, some _ => check_items_exist (src.items.map (·.item_code)) doc.items
      | _, _ => .ok ()
  | _, _ => .ok ()

/-- Existing quantity of the item code on the stored version of the Purchase
Order being updated (validate_po_against_rfq): 0 for a new document, for a
missing stored document, or for a code absent from the stored items. -/
def existing_po_qty (db : List Doc) (doc : Doc) (isNew : Bool) (code : String) : Int :=
  if isNew then 0
  else
    match get_doc? db "Purchase Order" doc.name with
    | none => 0
    | some orig =>
      match orig.items.find? (fun s => s.item_code == code) with
      | none => 0
      | some oi => oi.qty

/-- calculate_rfq_ordered_quantities_dynamic, curried at one item code:
total quantity of the code over all non-cancelled Purchase Orders whose
source is one of the submitted Supplier Quotations of the RFQ. -/
def calculate_rfq_ordered_quantities_dynamic (db : List Doc) (rfqName code : String) :
    Int :=
  let sqNames :=
    (db.filter fun d =>
      d.doctype == "Supplier Quotation" && d.source_doctype == some "Request for Quotation" &&
        d.source_name == some rfqName && d.docstatus == 1).map (·.name)
  let pos :=
    db.filter fun d =>
      d.doctype == "Purchase Order" && d.source_doctype == some "Supplier Quotation" &&
        (match d.source_name with
         | some n => sqNames.contains n
         | none => false) &&
        d.docstatus != 2
  (pos.map fun d => itemQtyInDoc d code).sum

/-- Per-item loop of validate_po_against_rfq: a PO item without a matching
RFQ line is skipped; otherwise the gate compares the PO quantity with the
RFQ quantity minus the cached ordered_qty of the RFQ line (plus the stored
quantity of the PO itself on an update); the dynamically recomputed total
is evaluated only inside the rejection, for the diagnostic payload. -/
def check_po_items_against_rfq (db : List Doc) (doc : Doc) (isNew : Bool) (rfq : Doc) :
    List LineItem → Except PErr Unit
  | [] => .ok ()
  | it :: rest =>
    match rfq.items.find? (fun s => s.item_code == it.item_code) with
    | none => check_po_items_against_rfq db doc isNew rfq rest
    | some ri =>
      if it.qty > ri.qty - ri.ordered_qty + existing_po_qty db doc isNew it.item_code then
        .error (.rfqQtyExceeded it.item_code
          (calculate_rfq_ordered_quantities_dynamic db rfq.name it.item_code))
      else check_po_items_against_rfq db doc isNew rfq rest

/-- validate_po_against_rfq of po_quantity_control.py.  Only a Purchase
Order sourced from a Supplier Quotation that itself stems from a Request
for Quotation is checked; a missing SQ or RFQ is a caught
DoesNotExistError, logged without blocking. -/
def validate_po_against_rfq (db : List Doc) (doc : Doc) (isNew : Bool) :
    Except PErr Unit :=
  if doc.doctype ≠ "Purchase Order" then .ok ()
  else if doc.source_doctype ≠ some "Supplier Quotation" then .ok ()
  else
    match doc.source_name with
    | none => .ok ()
    | some sqName =>
      match get_doc? db "Supplier Quotation" sqName with
      | none => .ok ()
      | some sq =>
        if sq.source_doctype = some "Request for Quotation" then
          match sq.source_name with
          | none => .ok ()
          | some rfqName =>
            match get_doc? db "Request for Quotation" rfqName with
            | none => .ok ()
            | some rfq => check_po_items_against_rfq db doc isNew rfq doc.items
        else .ok ()

/-- validate_supplier_matches_sq: the supplier of a Purchase Order sourced
from a Supplier Quotation must equal the supplier of that quotation; an
unset supplier is auto-filled from the quotation, never rejected. -/
def validate_supplier_matches_sq (db : List Doc) (doc : Doc) : Except PErr Unit :=
  if doc.doctype ≠ "Purchase Order" then .ok ()
  else if doc.source_doctype ≠ some "Supplier Quotation" then .ok ()
  else
    match doc.source_name with
    | none => .ok ()
    | some sqName =>
      match get_doc? db "Supplier Quotation" sqName with
      | none => .ok ()
      | some sq =>
        match doc.supplier with
        | none => .ok ()
        | some s =>
          if sq.supplier = some s then .ok ()
          else .error (.supplierMismatch (sq.supplier.getD "") s)

/-- Action argument of update_rfq_ordered_qty. -/
inductive QAction where
  | add
  | subtract
deriving DecidableEq, Repr

/-- New cached ordered quantity: addition on submit, subtraction floored at
zero on cancel. -/
def apply_qty_action (action : QAction) (oldOrdered poQty : Int) : Int :=
  match action with
  | .add => oldOrdered + poQty
  | .subtract => max 0 (oldOrdered - poQty)

/-- Inner loop of update_rfq_ordered_qty: the first RFQ line matching the
item code gets its ordered_qty updated and remaining_qty recomputed; the
loop breaks after the first match. -/
def update_first_rfq_item (code : String) (poQty : Int) (action : QAction) :
    List LineItem → List LineItem
  | [] => []
  | ri :: rest =>
    if ri.item_code == code then
      { ri with
        ordered_qty := apply_qty_action action ri.ordered_qty poQty,
        remaining_qty := ri.qty - apply_qty_action action ri.ordered_qty poQty } :: rest
    else ri :: update_first_rfq_item code poQty action rest

/-- Save of a mutated document: every stored record of that doctype and
name is replaced. -/
def replaceDoc (db : List Doc) (dt dn : String) (newDoc : Doc) : List Doc :=
  db.map fun d => if d.doctype == dt && d.name == dn then newDoc else d

/-- update_rfq_ordered_qty of po_quantity_control.py: on submit (add) or
cancel (subtract) of a Purchase Order sourced from a Supplier Quotation
that stems from an RFQ, the cached ordered_qty and remaining_qty of the
matching RFQ lines are updated and the RFQ saved.  Every other document,
and every missing-document error, leaves the store unchanged. -/
def update_rfq_ordered_qty (db : List Doc) (po : Doc) (action : QAction) : List Doc :=
  if po.doctype ≠ "Purchase Order" then db
  else if po.source_doctype ≠ some "Supplier Quotation" then db
  else
    match po.source_name with
    | none => db
    | some sqName =>
      match get_doc? db "Supplier Quotation" sqName with
      | none => db
      | some sq =>
        if sq.source_doctype = some "Request for Quotation" then
          match sq.source_name with
          | none => db
          | some rfqName =>
            match get_doc? db "Request for Quotation" rfqName with
            | none => db
            | some rfq =>
              replaceDoc db "Request for Quotation" rfqName
                { rfq with
                  items := po.items.foldl
                    (fun acc pi => update_first_rfq_item pi.item_code pi.qty action acc)
                    rfq.items }
        else db

/-- Membership test of create_backward_link: an edge with the same target
pair already recorded on the source document. -/
def hasLinkTo (d : Doc) (tdt tn : String) : Bool :=
  d.links.any fun l => l.target_doctype == tdt && l.target_docname == tn

/-- create_backward_link of procurement_workflow.py: append one LinkEdge to
the procurement_links of the source document unless an edge with the same
target pair exists; a missing source document is logged and swallowed. -/
def create_backward_link (db : List Doc) (sdt sn tdt tn : String) (ts : Nat) :
    List Doc :=
  match get_doc? db sdt sn with
  | none => db
  | some d =>
    if hasLinkTo d tdt tn then db
    else replaceDoc db sdt sn { d with links := d.links ++ [⟨sdt, sn, tdt, tn, ts⟩] }

/-- Grouping dict docs_by_type of check_can_cancel, insertion ordered. -/
def insert_group : List (String × List String) → String → String →
    List (String × List String)
  | [], dt, dn => [(dt, [dn])]
  | (k, vs) :: rest, dt, dn =>
    if k = dt then (k, vs ++ [dn]) :: rest else (k, vs) :: insert_group rest dt dn

/-- Blocking descendants of check_can_cancel grouped by target doctype. -/
def group_links_by_type (links : List LinkEdge) : List (String × List String) :=
  links.foldl (fun acc l => insert_group acc l.target_doctype l.target_docname) []

/-- check_can_cancel of procurement_workflow.py: a document with a
non-empty procurement_links table throws, the error listing every blocking
descendant grouped by doctype. -/
def check_can_cancel (doc : Doc) : Except PErr Unit :=
  match doc.links with
  | [] => .ok ()
  | _ => .error (.cannotCancel (group_links_by_type doc.links))

/-- Step row of a Procurement Flow. -/
structure ProcurementFlowStep where
  step_no : Nat
  doctype_name : String
  requires_source : Bool
deriving DecidableEq, Repr

/-- Procurement Flow record. -/
structure ProcurementFlow where
  name : String
  is_active : Bool
  flow_steps : List ProcurementFlowStep
deriving DecidableEq, Repr

/-- get_active_flow: the stored flow marked active (first such record). -/
def get_active_flow (flows : List ProcurementFlow) : Option ProcurementFlow :=
  flows.find? (·.is_active)

/-- Stable insertion into a step list ordered by step_no: the new step goes
after every already-placed step of lower or equal number, so equal keys
keep their original order, as with the Python sorted builtin. -/
def insert_step (x : ProcurementFlowStep) : List ProcurementFlowStep →
    List ProcurementFlowStep
  | [] => [x]
  | y :: ys => if y.step_no ≤ x.step_no then y :: insert_step x ys else x :: y :: ys

/-- get_flow_steps: steps of a flow sorted by step_no (stable sort, the
Python sorted builtin). -/
def get_flow_steps (f : ProcurementFlow) : List ProcurementFlowStep :=
  f.flow_steps.foldl (fun acc x => insert_step x acc) []

/-- get_current_step: first step of the active flow carrying the doctype. -/
def get_current_step (f : ProcurementFlow) (dt : String) : Option ProcurementFlowStep :=
  (get_flow_steps f).find? fun s => s.doctype_name == dt

/-- Loop of get_previous_step: the step before the first index above zero
whose doctype matches (an index-zero match is skipped). -/
def prev_step_loop (prev : Option ProcurementFlowStep) (dt : String) :
    List ProcurementFlowStep → Option ProcurementFlowStep
  | [] => none
  | s :: rest =>
    match prev with
    | none => prev_step_loop (some s) dt rest
    | some p => if s.doctype_name = dt then some p else prev_step_loop (some s) dt rest

/-- get_previous_step: the flow step immediately before the current doctype
in step order. -/
def get_previous_step (f : ProcurementFlow) (dt : String) : Option ProcurementFlowStep :=
  prev_step_loop none dt (get_flow_steps f)

/-- validate_step_order of procurement_workflow.py: pass-through without an
active flow or when the doctype is not a flow step; with requires_source,
an absent source pair is allowed (manual creation), a partial pair throws,
and a full pair must name the doctype of the previous flow step. -/
def validate_step_order (flows : List ProcurementFlow) (doc : Doc) : Except PErr Unit :=
  match get_active_flow flows with
  | none => .ok ()
  | some f =>
    match get_current_step f doc.doctype with
    | none => .ok ()
    | some step =>
      if step.requires_source then
        match doc.source_doctype, doc.source_name with
        | none, none => .ok ()
        | some _, none => .error .bothOrNeither
        | none, some _ => .error .bothOrNeither
        | some sdt, some _ =>
          match get_previous_step f doc.doctype with
          | none => .ok ()
          | some prev =>
            if sdt ≠ prev.doctype_name then
              .error (.wrongSourceType prev.doctype_name sdt)
            else .ok ()
      else .ok ()

/-- validate_procurement_document: the validate hook chain of every
procurement doctype (step order, then quantity limits, then item
containment); the surrounding try block logs and re-raises, leaving the
outcome unchanged. -/
def validate_procurement_document (flows : List ProcurementFlow) (db : List Doc) (doc : Doc)
    (isNew : Bool) : Except PErr Unit := do
  validate_step_order flows doc
  validate_quantity_limits db doc isNew
  validate_items_against_source db doc

/-- on_po_validate: the extra validate hook of Purchase Order. -/
def on_po_validate (db : List Doc) (doc : Doc) (isNew : Bool) : Except PErr Unit := do
  validate_supplier_matches_sq db doc
  validate_po_against_rfq db doc isNew

/-- Full validate pipeline of a Purchase Order as wired in hooks.py:
validate_procurement_document followed by on_po_validate. -/
def full_po_validate (flows : List ProcurementFlow) (db : List Doc) (doc : Doc) (isNew : Bool) :
    Except PErr Unit := do
  validate_procurement_document flows db doc isNew
  on_po_validate db doc isNew

/-- RFQ Supplier Rule record. -/
structure SupplierRule where
  name : String
  amount_from : Int
  amount_to : Int
  min_suppliers : Nat
  priority : Int
  is_active : Bool
deriving DecidableEq, Repr

/-- Filter of get_applicable_rule: active and amount_from ≤ amount < amount_to
(the half-open interval). -/
def rule_covers (amt : Int) (r : SupplierRule) : Bool :=
  r.is_active && decide (r.amount_from ≤ amt) && decide (amt < r.amount_to)

/-- Order clause of get_applicable_rule: priority ascending, then
amount_from ascending. -/
def ruleLE (a b : SupplierRule) : Bool :=
  decide (a.priority < b.priority) ||
    (decide (a.priority = b.priority) && decide (a.amount_from ≤ b.amount_from))

/-- get_applicable_rule of rfq_supplier_rule.py: among active rules whose
half-open interval contains the amount, the first after sorting by
priority then amount_from; none when no interval contains the amount. -/
def get_applicable_rule (rules : List SupplierRule) (amt : Int) : Option SupplierRule :=
  ((rules.filter (rule_covers amt)).mergeSort ruleLE).head?

/-- Source pointer of the backward walks: the doctype and name stored in
the procurement source fields of the document, none when the document is
missing from the store or either field is unset. -/
def source_pair (db : List Doc) (dt dn : String) : Option (String × String) :=
  match get_doc? db dt dn with
  | none => none
  | some d =>
    match d.source_doctype, d.source_name with
    | some sdt, some sdn => some (sdt, sdn)
    | _, _ => none

/-- Loop of find_root_document with its remaining iteration budget: walk to
the source while one exists and budget remains, else stop at the current
document. -/
def findRootAux (db : List Doc) : Nat → String × String → String × String
  | 0, c => c
  | n + 1, c =>
    match source_pair db c.1 c.2 with
    | none => c
    | some nxt => findRootAux db n nxt

/-- Model of find_root_document of procurement_workflow.py: backward walk capped at
max_iterations = 20 hops. -/
def findRootDocument (db : List Doc) (dt dn : String) : String × String :=
  findRootAux db 20 (dt, dn)

/-- Key format doctype::name used by the path set. -/
def pathKey (c : String × String) : String :=
  c.1 ++ "::" ++ c.2

/-- Loop of get_path_to_document with its remaining iteration budget: each
pass records the current key, then walks to the source while one exists.
The Python builds the list root-first via insert(0) and returns it as a
set; the list here is target-first, the members identical. -/
def get_path_aux (db : List Doc) : Nat → String × String → List String
  | 0, _ => []
  | n + 1, c =>
    pathKey c ::
      (match source_pair db c.1 c.2 with
       | none => []
       | some nxt => get_path_aux db n nxt)

/-- get_path_to_document of procurement_workflow.py: backward walk capped at
max_iterations = 20, collecting the keys of the visited documents. -/
def get_path_to_document (db : List Doc) (dt dn : String) : List String :=
  get_path_aux db 20 (dt, dn)

/-- Backward-chain loop of get_linked_documents_with_counts, instrumented
with fuel: the Python while loop has no iteration cap, so the fuel models
observation time; none means the loop is still running after that many
passes, some the chain it returned with. -/
def backward_chain_aux (db : List Doc) : Nat → String × String →
    Option (List (String × String))
  | 0, _ => none
  | n + 1, c =>
    match source_pair db c.1 c.2 with
    | none => some [c]
    | some nxt => (backward_chain_aux db n nxt).map (c :: ·)

/-- Non-termination of the uncapped backward-chain loop from a start pair:
no finite number of loop passes completes it. -/
def backward_chain_diverges (db : List Doc) (c : String × String) : Prop :=
  ∀ fuel : Nat, backward_chain_aux db fuel c = none

/-- One-hop source step of the backward walks: the source pair when one
exists, else the current pair. -/
def source_step (db : List Doc) (c : String × String) : String × String :=
  (source_pair db c.1 c.2).getD c

/-! Concrete stores used by the counterexamples and witnesses. -/

/-- Flow Material Request → Purchase Requisition → Request for Quotation →
Supplier Quotation → Purchase Order, source required from step 2 on. -/
def flowF1 : ProcurementFlow :=
  { name := "F1", is_active := true,
    flow_steps :=
      [⟨1, "Material Request", false⟩,
       ⟨2, "Purchase Requisition", true⟩,
       ⟨3, "Request for Quotation", true⟩,
       ⟨4, "Supplier Quotation", true⟩,
       ⟨5, "Purchase Order", true⟩] }

/-- Flow table holding the single active flow. -/
def flowsMain : List ProcurementFlow := [flowF1]

/-- Step record of Purchase Requisition inside flowF1. -/
def stepPR : ProcurementFlowStep := ⟨2, "Purchase Requisition", true⟩

/-- Submitted Purchase Requisition declaring 10 of ITEM-1. -/
def prC1 : Doc :=
  { doctype := "Purchase Requisition", name := "PR-1", docstatus := 1,
    items := [{ item_code := "ITEM-1", qty := 10 }] }

/-- Store of the C1 counterexample. -/
def dbC1 : List Doc := [prC1]

/-- Request for Quotation under validation requesting 50 of ITEM-1 from
PR-1, five times the declared quantity. -/
def rfqC1 : Doc :=
  { doctype := "Request for Quotation", name := "RFQ-X",
    source_doctype := some "Purchase Requisition", source_name := some "PR-1",
    items := [{ item_code := "ITEM-1", qty := 50 }] }

/-- RFQ of the C2 counterexample: declared 100 of ITEM-1, stale cached
ordered_qty of 90 while no Purchase Order exists. -/
def rfqC2 : Doc :=
  { doctype := "Request for Quotation", name := "RFQ-2", docstatus := 1,
    items := [{ item_code := "ITEM-1", qty := 100, ordered_qty := 90 }],
    suppliers := ["S1"] }

/-- Submitted Supplier Quotation of RFQ-2. -/
def sqC2 : Doc :=
  { doctype := "Supplier Quotation", name := "SQ-21", docstatus := 1,
    source_doctype := some "Request for Quotation", source_name := some "RFQ-2",
    items := [{ item_code := "ITEM-1", qty := 100 }], supplier := some "S1" }

/-- Store of the C2 counterexample. -/
def dbC2 : List Doc := [rfqC2, sqC2]

/-- New Purchase Order of 50 from SQ-21. -/
def poC2 : Doc :=
  { doctype := "Purchase Order", name := "PO-B2",
    source_doctype := some "Supplier Quotation", source_name := some "SQ-21",
    items := [{ item_code := "ITEM-1", qty := 50 }], supplier := some "S1" }

/-- New Purchase Order of 10 from SQ-21, small enough to pass the cached
gate, used by the C2 witness. -/
def poC2small : Doc :=
  { doctype := "Purchase Order", name := "PO-S2",
    source_doctype := some "Supplier Quotation", source_name := some "SQ-21",
    items := [{ item_code := "ITEM-1", qty := 10 }], supplier := some "S1" }

/-- RFQ of the C3 scenario: 100 of ITEM-1 declared, nothing ordered yet. -/
def rfqC3 : Doc :=
  { doctype := "Request for Quotation", name := "RFQ-1", docstatus := 1,
    items := [{ item_code := "ITEM-1", qty := 100, remaining_qty := 100 }],
    suppliers := ["S1", "S2"] }

/-- First competing Supplier Quotation, 60 of ITEM-1 by supplier S1. -/
def sqC3a : Doc :=
  { doctype := "Supplier Quotation", name := "SQ-1", docstatus := 1,
    source_doctype := some "Request for Quotation", source_name := some "RFQ-1",
    items := [{ item_code := "ITEM-1", qty := 60, rate := 5 }], supplier := some "S1" }

/-- Second competing Supplier Quotation, 40 of ITEM-1 by supplier S2. -/
def sqC3b : Doc :=
  { doctype := "Supplier Quotation", name := "SQ-2", docstatus := 1,
    source_doctype := some "Request for Quotation", source_name := some "RFQ-1",
    items := [{ item_code := "ITEM-1", qty := 40, rate := 4 }], supplier := some "S2" }

/-- Store of the C3 scenario before any Purchase Order. -/
def dbC3 : List Doc := [rfqC3, sqC3a, sqC3b]

/-- Purchase Order A: 60 of ITEM-1 via SQ-1, draft under validation. -/
def poC3a : Doc :=
  { doctype := "Purchase Order", name := "PO-A",
    source_doctype := some "Supplier Quotation", source_name := some "SQ-1",
    items := [{ item_code := "ITEM-1", qty := 60 }], supplier := some "S1" }

/-- Purchase Order A after submission. -/
def poC3aSubmitted : Doc := { poC3a with docstatus := 1 }

/-- Store after Purchase Order A is submitted: the document inserted, the
backward link recorded on SQ-1 and the on_po_submit hook applied. -/
def dbC3After : List Doc :=
  update_rfq_ordered_qty
    (create_backward_link (dbC3 ++ [poC3aSubmitted])
      "Supplier Quotation" "SQ-1" "Purchase Order" "PO-A" 7)
    poC3aSubmitted .add

/-- Purchase Order B: 50 of ITEM-1 via SQ-2, validated after A submitted. -/
def poC3b : Doc :=
  { doctype := "Purchase Order", name := "PO-B",
    source_doctype := some "Supplier Quotation", source_name := some "SQ-2",
    items := [{ item_code := "ITEM-1", qty := 50 }], supplier := some "S2" }

/-- Purchase Order C: 40 of ITEM-1 via SQ-2, used by the C3 witness. -/
def poC3c : Doc :=
  { doctype := "Purchase Order", name := "PO-C",
    source_doctype := some "Supplier Quotation", source_name := some "SQ-2",
    items := [{ item_code := "ITEM-1", qty := 40 }], supplier := some "S2" }

/-- RFQ line of the C3 scenario after the submission of PO-A: 60 ordered,
40 remaining. -/
def riC3After : LineItem :=
  { item_code := "ITEM-1", qty := 100, ordered_qty := 60, remaining_qty := 40 }

/-- RFQ record of the C3 scenario after the submission of PO-A. -/
def rfqC3Updated : Doc := { rfqC3 with items := [riC3After] }

/-- RFQ of the C4 counterexample: 100 of ITEM-1, suppliers S1 and S2. -/
def rfqC4 : Doc :=
  { doctype := "Request for Quotation", name := "RFQ-4", docstatus := 1,
    items := [{ item_code := "ITEM-1", qty := 100 }], suppliers := ["S1", "S2"] }

/-- First Supplier Quotation of the C4 scenario, quoting the full 100. -/
def sqC4a : Doc :=
  { doctype := "Supplier Quotation", name := "SQ-41", docstatus := 1,
    source_doctype := some "Request for Quotation", source_name := some "RFQ-4",
    items := [{ item_code := "ITEM-1", qty := 100, rate := 3 }], supplier := some "S1" }

/-- Second Supplier Quotation of the C4 scenario, also quoting the full
100, validated while SQ-41 exists. -/
def sqC4b : Doc :=
  { doctype := "Supplier Quotation", name := "SQ-42",
    source_doctype := some "Request for Quotation", source_name := some "RFQ-4",
    items := [{ item_code := "ITEM-1", qty := 100, rate := 2 }], supplier := some "S2" }

/-- C4 store before the first quotation exists. -/
def dbC4Before : List Doc := [rfqC4]

/-- C4 store once the first quotation is stored. -/
def dbC4 : List Doc := [rfqC4, sqC4a]

/-- Over-requesting Request for Quotation used by the C4 witness: 75 of
ITEM-1 requested from a Purchase Requisition that declared 10. -/
def rfqC4w : Doc :=
  { doctype := "Request for Quotation", name := "RFQ-W",
    source_doctype := some "Purchase Requisition", source_name := some "PR-1",
    items := [{ item_code := "ITEM-1", qty := 75 }] }

/-- Material Request used by the C5 witness. -/
def mrC5 : Doc :=
  { doctype := "Material Request", name := "MR-1", docstatus := 1,
    items := [{ item_code := "ITEM-1", qty := 10 }] }

/-- Purchase Requisition with a partial source pair (doctype set, name
absent) used by the C5 witness. -/
def prC5halfPair : Doc :=
  { doctype := "Purchase Requisition", name := "PR-5",
    source_doctype := some "Material Request",
    items := [{ item_code := "ITEM-1", qty := 10 }] }

/-- Purchase Requisition with a full, correct source pair (the Material
Request of the previous flow step), used by the C5 witness. -/
def prC5full : Doc :=
  { doctype := "Purchase Requisition", name := "PR-5F",
    source_doctype := some "Material Request", source_name := some "MR-1",
    items := [{ item_code := "ITEM-1", qty := 10 }] }

/-- Purchase Requisition naming a source of the wrong doctype, used by the
C5 witness. -/
def prC5wrong : Doc :=
  { doctype := "Purchase Requisition", name := "PR-5W",
    source_doctype := some "Request for Quotation", source_name := some "RFQ-1",
    items := [{ item_code := "ITEM-1", qty := 10 }] }

/-- Store of the C1 witness: one submitted Material Request. -/
def dbC1w : List Doc := [mrC5]

/-- Purchase Requisition of 4 from MR-1, used by the C1 witness. -/
def prC1w : Doc :=
  { doctype := "Purchase Requisition", name := "PR-W1",
    source_doctype := some "Material Request", source_name := some "MR-1",
    items := [{ item_code := "ITEM-1", qty := 4 }] }

/-- Document used by the C6 witness: a submitted Material Request with no
links yet. -/
def mrC6 : Doc :=
  { doctype := "Material Request", name := "MR-6", docstatus := 1,
    items := [{ item_code := "ITEM-1", qty := 10 }] }

/-- Store of the C6 witness. -/
def dbC6 : List Doc := [mrC6]

/-- Document with two recorded forward links used by the C7 witness. -/
def docC7 : Doc :=
  { doctype := "Purchase Requisition", name := "PR-7", docstatus := 1,
    links :=
      [⟨"Purchase Requisition", "PR-7", "Request for Quotation", "RFQ-9", 1⟩,
       ⟨"Purchase Requisition", "PR-7", "Request for Quotation", "RFQ-10", 2⟩] }

/-- Supplier rule over the half-open bracket 100 to 1000. -/
def ruleC8a : SupplierRule :=
  { name := "R1", amount_from := 100, amount_to := 1000, min_suppliers := 3,
    priority := 1, is_active := true }

/-- Supplier rule over the half-open bracket 1000 to 5000. -/
def ruleC8b : SupplierRule :=
  { name := "R2", amount_from := 1000, amount_to := 5000, min_suppliers := 5,
    priority := 1, is_active := true }

/-- Low-precedence supplier rule overlapping both brackets, used by the C8
witness (get_applicable_rule does not assume non-overlap). -/
def ruleC8c : SupplierRule :=
  { name := "R3", amount_from := 0, amount_to := 2000, min_suppliers := 2,
    priority := 2, is_active := true }

/-- Two documents whose procurement source pointers form a cycle (the data
corruption the 20-hop cap guards against). -/
def cycA : Doc :=
  { doctype := "Material Request", name := "A",
    source_doctype := some "Purchase Requisition", source_name := some "B" }

/-- Second node of the corrupted cycle. -/
def cycB : Doc :=
  { doctype := "Purchase Requisition", name := "B",
    source_doctype := some "Material Request", source_name := some "A" }

/-- Store whose source pointers form a two-cycle. -/
def dbCyc : List Doc := [cycA, cycB]

/-- Purchase Order sourced from a Material Request, used by the C10
witness: the quantity hooks must leave the store untouched. -/
def poC10 : Doc :=
  { doctype := "Purchase Order", name := "PO-10", docstatus := 1,
    source_doctype := some "Material Request", source_name := some "MR-1",
    items := [{ item_code := "ITEM-1", qty := 5 }] }

/-- Membership in the grouped blocking-descendant list: some group carries
the doctype and contains the document name. -/
def in_groups (gs : List (String × List String)) (dt dn : String) : Prop :=
  ∃ g ∈ gs, g.1 = dt ∧ dn ∈ g.2

/-- Number of link edges of the stored source document aimed at the given
target pair. -/
def countLinkEdges (db : List Doc) (sdt sn tdt tn : String) : Nat :=
  match get_doc? db sdt sn with
  | none => 0
  | some d => (d.links.filter fun l => l.target_doctype == tdt && l.target_docname == tn).length

/-! Helper lemmas. -/

lemma in_groups_insert_self (gs : List (String × List String)) (dt dn : String) :
    in_groups (insert_group gs dt dn) dt dn := by
  induction gs with
  | nil => exact ⟨(dt, [dn]), by simp [insert_group], rfl, by simp⟩
  | cons g rest ih =>
    obtain ⟨k, vs⟩ := g
    by_cases hk : k = dt
    · subst hk
      exact ⟨(k, vs ++ [dn]), by simp [insert_group], rfl, by simp⟩
    · obtain ⟨g0, hg0, h1, h2⟩ := ih
      exact ⟨g0, by simp [insert_group, hk, hg0], h1, h2⟩

lemma in_groups_insert_mono (gs : List (String × List String)) (a b dt dn : String)
    (h : in_groups gs a b) : in_groups (insert_group gs dt dn) a b := by
  induction gs with
  | nil => obtain ⟨g, hg, _, _⟩ := h; simp at hg
  | cons g rest ih =>
    obtain ⟨k, vs⟩ := g
    obtain ⟨g0, hg0, h1, h2⟩ := h
    rcases List.mem_cons.mp hg0 with hEq | hMem
    · by_cases hk : k = dt
      · subst hEq
        exact ⟨(k, vs ++ [dn]), by simp [insert_group, hk], h1, by
          simp only [List.mem_append]; exact Or.inl h2⟩
      · subst hEq
        exact ⟨(k, vs), by simp [insert_group, hk], h1, h2⟩
    · by_cases hk : k = dt
      · exact ⟨g0, by simp [insert_group, hk, hMem], h1, h2⟩
      · obtain ⟨g1, hg1, j1, j2⟩ := ih ⟨g0, hMem, h1, h2⟩
        exact ⟨g1, by simp [insert_group, hk, hg1], j1, j2⟩

lemma in_groups_foldl_mono (links : List LinkEdge) (gs : List (String × List String))
    (a b : String) (h : in_groups gs a b) :
    in_groups
      (links.foldl (fun acc l => insert_group acc l.target_doctype l.target_docname) gs)
      a b := by
  induction links generalizing gs with
  | nil => exact h
  | cons l rest ih => exact ih _ (in_groups_insert_mono _ _ _ _ _ h)

lemma in_groups_foldl_mem (links : List LinkEdge) (gs : List (String × List String)) :
    ∀ l ∈ links,
      in_groups
        (links.foldl (fun acc l => insert_group acc l.target_doctype l.target_docname) gs)
        l.target_doctype l.target_docname := by
  induction links generalizing gs with
  | nil => intro l hl; simp at hl
  | cons l0 rest ih =>
    intro l hl
    rcases List.mem_cons.mp hl with hEq | hMem
    · subst hEq
      exact in_groups_foldl_mono rest _ _ _ (in_groups_insert_self gs _ _)
    · exact ih _ l hMem

/-! Claim theorems. -/

/-- C7: a document with one or more forward links is never cancellable:
check_can_cancel rejects, and the error payload groups every blocking
descendant by doctype, each link target listed in its group. -/
theorem C7_forward_links_block_cancel (doc : Doc) (h : doc.links ≠ []) :
    check_can_cancel doc = .error (.cannotCancel (group_links_by_type doc.links)) ∧
    ∀ l ∈ doc.links,
      in_groups (group_links_by_type doc.links) l.target_doctype l.target_docname := by
  constructor
  · cases hl : doc.links with
    | nil => exact absurd hl h
    | cons a rest => simp [check_can_cancel, hl]
  · intro l hl
    exact in_groups_foldl_mem doc.links [] l hl

/-- C7 witness: a concrete document carrying two forward links fails the
cancellation check with both targets listed under their doctype. -/
theorem C7_forward_links_block_cancel_witness :
    check_can_cancel docC7 =
      .error (.cannotCancel [("Request for Quotation", ["RFQ-9", "RFQ-10"])]) ∧
    in_groups (group_links_by_type docC7.links) "Request for Quotation" "RFQ-9" := by
  have h := C7_forward_links_block_cancel docC7 (by decide)
  refine ⟨h.1.trans ?_, ?_⟩
  · decide
  · exact h.2 ⟨"Purchase Requisition", "PR-7", "Request for Quotation", "RFQ-9", 1⟩ (by decide)

/-- C10: the ordered-quantity cache update of submit and cancel is a no-op
on the whole store for a Purchase Order not sourced from a Supplier
Quotation, or whose source quotation is not itself sourced from a Request
for Quotation; in particular every RFQ line item keeps its ordered_qty and
remaining_qty. -/
theorem C10_update_rfq_ordered_qty_noop (db : List Doc) (po : Doc) (action : QAction)
    (h : po.source_doctype ≠ some "Supplier Quotation" ∨
         ∀ sqName sq, po.source_name = some sqName →
           get_doc? db "Supplier Quotation" sqName = some sq →
           sq.source_doctype ≠ some "Request for Quotation" ∨ sq.source_name = none) :
    update_rfq_ordered_qty db po action = db := by
  by_cases h1 : po.doctype ≠ "Purchase Order"
  · simp [update_rfq_ordered_qty, h1]
  · by_cases h2 : po.source_doctype ≠ some "Supplier Quotation"
    · simp [update_rfq_ordered_qty, h1, h2]
    · cases hsn : po.source_name with
      | none => simp [update_rfq_ordered_qty, h1, h2, hsn]
      | some sqName =>
        cases hgd : get_doc? db "Supplier Quotation" sqName with
        | none => simp [update_rfq_ordered_qty, h1, h2, hsn, hgd]
        | some sq =>
          have hd := h.resolve_left (by simpa using h2)
          rcases hd sqName sq hsn hgd with hne | hnone
          · simp [update_rfq_ordered_qty, h1, h2, hsn, hgd, hne]
          · by_cases hc : sq.source_doctype = some "Request for Quotation"
            · simp [update_rfq_ordered_qty, h1, h2, hsn, hgd, hc, hnone]
            · simp [update_rfq_ordered_qty, h1, h2, hsn, hgd, hc]

/-- C10 witness: a submitted Purchase Order sourced from a Material Request
leaves the store unchanged under both the add and the subtract hook. -/
theorem C10_update_rfq_ordered_qty_noop_witness :
    update_rfq_ordered_qty dbC1 poC10 .add = dbC1 ∧
    update_rfq_ordered_qty dbC1 poC10 .subtract = dbC1 :=
  ⟨C10_update_rfq_ordered_qty_noop dbC1 poC10 .add (Or.inl (by decide)),
   C10_update_rfq_ordered_qty_noop dbC1 poC10 .subtract (Or.inl (by decide))⟩

/-- C4 counterexample: quantity consumption against an RFQ by competing
Supplier Quotations IS enforced.  With RFQ-4 declaring 100 of ITEM-1, the
first quotation of the full 100 validates fine, but the second quotation
of the full 100 is rejected with a quantity error, refuting the claim that
both pass. -/
theorem C4_counterexample :
    validate_procurement_document [] dbC4Before sqC4a true = .ok () ∧
    validate_procurement_document [] dbC4 sqC4b true = .error (.qtyExceeded "ITEM-1") := by
  constructor <;> decide

/-- C4 amended: the quantity check is skipped only when the document being
validated is itself a Request for Quotation, whatever its requested
quantities; Supplier Quotations do consume the RFQ quantities. -/
theorem C4_rfq_quantity_skip (db : List Doc) (doc : Doc) (isNew : Bool)
    (h : doc.doctype = "Request for Quotation") :
    validate_quantity_limits db doc isNew = .ok () := by
  cases hsd : doc.source_doctype <;> cases hsn : doc.source_name <;>
    simp [validate_quantity_limits, hsd, hsn, h]

/-- C4 witness: an RFQ requesting 75 of ITEM-1 from a Purchase Requisition
that declared only 10 still passes the quantity check. -/
theorem C4_rfq_quantity_skip_witness :
    (75 : Int) >
      10 - get_consumed_qty dbC1 "Purchase Requisition" "PR-1"
        "Request for Quotation" none "ITEM-1" ∧
    validate_quantity_limits dbC1 rfqC4w true = .ok () :=
  ⟨by decide, C4_rfq_quantity_skip dbC1 rfqC4w true rfl⟩

lemma get_path_aux_length_le (db : List Doc) :
    ∀ (n : Nat) (c : String × String), (get_path_aux db n c).length ≤ n := by
  intro n
  induction n with
  | zero => intro c; simp [get_path_aux]
  | succ n ih =>
    intro c
    cases hs : source_pair db c.1 c.2 with
    | none => simp [get_path_aux, hs]
    | some nxt =>
      simpa [get_path_aux, hs, Nat.succ_le_succ_iff] using ih nxt

lemma findRootAux_iterate (db : List Doc) :
    ∀ (n : Nat) (c : String × String), ∃ k ≤ n,
      findRootAux db n c = (source_step db)^[k] c := by
  intro n
  induction n with
  | zero => intro c; exact ⟨0, Nat.le_refl 0, rfl⟩
  | succ n ih =>
    intro c
    cases hs : source_pair db c.1 c.2 with
    | none => exact ⟨0, Nat.zero_le _, by simp [findRootAux, hs]⟩
    | some nxt =>
      obtain ⟨k, hk, he⟩ := ih nxt
      refine ⟨k + 1, Nat.succ_le_succ hk, ?_⟩
      have hstep : source_step db c = nxt := by simp [source_step, hs]
      simp [findRootAux, hs, he, Function.iterate_succ_apply, hstep]

lemma cyc_chain_none (n : Nat) :
    backward_chain_aux dbCyc n ("Material Request", "A") = none ∧
    backward_chain_aux dbCyc n ("Purchase Requisition", "B") = none := by
  induction n with
  | zero => exact ⟨rfl, rfl⟩
  | succ n ih =>
    have hA : source_pair dbCyc "Material Request" "A" =
        some ("Purchase Requisition", "B") := by decide
    have hB : source_pair dbCyc "Purchase Requisition" "B" =
        some ("Material Request", "A") := by decide
    exact ⟨by simp [backward_chain_aux, hA, ih.2],
           by simp [backward_chain_aux, hB, ih.1]⟩

/-- C9 counterexample: the backward-chain loop of
get_linked_documents_with_counts carries no iteration cap; on a store
whose source pointers form a two-cycle it never finishes, refuting the
claim that every backward walk is capped at 20 hops. -/
theorem C9_counterexample : backward_chain_diverges dbCyc ("Material Request", "A") :=
  fun n => (cyc_chain_none n).1

/-- C9 amended: the walks of find_root_document (findRootDocument here) and get_path_to_document
are capped at max_iterations = 20 and total on every store, cyclic
pointers included: the root is the k-th source iterate of the start for
some k of at most 20, and the recorded path holds at most 20 keys.  The
backward-chain loop of get_linked_documents_with_counts carries no such
cap and need not terminate. -/
theorem C9_bounded_backward_walks :
    (∀ (db : List Doc) (dt dn : String), ∃ k ≤ 20,
        findRootDocument db dt dn = (source_step db)^[k] (dt, dn)) ∧
    ∀ (db : List Doc) (dt dn : String), (get_path_to_document db dt dn).length ≤ 20 :=
  ⟨fun db dt dn => findRootAux_iterate db 20 (dt, dn),
   fun db dt dn => get_path_aux_length_le db 20 (dt, dn)⟩

lemma get_doc?_replaceDoc (db : List Doc) (dt dn : String) (nd : Doc)
    (hm : (nd.doctype == dt && nd.name == dn) = true) :
    get_doc? (replaceDoc db dt dn nd) dt dn
      = (get_doc? db dt dn).map fun _ => nd := by
  unfold get_doc? replaceDoc
  induction db with
  | nil => rfl
  | cons d rest ih =>
    by_cases h : (d.doctype == dt && d.name == dn) = true
    · simp only [List.map_cons, if_pos h, List.find?_cons, hm, h, Option.map_some',
        if_true]
    · have h2 : (d.doctype == dt && d.name == dn) = false := by simpa using h
      simp only [List.map_cons, if_neg h, List.find?_cons, h2, ih,
        Bool.false_eq_true, if_false]

lemma create_backward_link_twice (db : List Doc) (sdt sn tdt tn : String)
    (ts1 ts2 : Nat) :
    create_backward_link (create_backward_link db sdt sn tdt tn ts1) sdt sn tdt tn ts2
      = create_backward_link db sdt sn tdt tn ts1 := by
  cases hgd : get_doc? db sdt sn with
  | none =>
    have h1 : create_backward_link db sdt sn tdt tn ts1 = db := by
      unfold create_backward_link
      rw [hgd]
    rw [h1]
    unfold create_backward_link
    rw [hgd]
  | some d =>
    by_cases hl : hasLinkTo d tdt tn = true
    · have h1 : create_backward_link db sdt sn tdt tn ts1 = db := by
        unfold create_backward_link
        rw [hgd]
        simp [hl]
      rw [h1]
      unfold create_backward_link
      rw [hgd]
      simp [hl]
    · have hgdF : db.find? (fun x => x.doctype == sdt && x.name == sn) = some d := hgd
      have hp : (d.doctype == sdt && d.name == sn) = true := by
        simpa using List.find?_some hgdF
      have hlf : hasLinkTo d tdt tn = false := by simpa using hl
      have h1 : create_backward_link db sdt sn tdt tn ts1 =
          replaceDoc db sdt sn { d with links := d.links ++ [⟨sdt, sn, tdt, tn, ts1⟩] } := by
        unfold create_backward_link
        rw [hgd]
        simp [hlf]
      have h2 : get_doc?
          (replaceDoc db sdt sn { d with links := d.links ++ [⟨sdt, sn, tdt, tn, ts1⟩] })
          sdt sn
          = some { d with links := d.links ++ [⟨sdt, sn, tdt, tn, ts1⟩] } := by
        rw [get_doc?_replaceDoc db sdt sn
          { d with links := d.links ++ [⟨sdt, sn, tdt, tn, ts1⟩] } hp, hgd,
          Option.map_some']
      have h3 : hasLinkTo
          { d with links := d.links ++ [(⟨sdt, sn, tdt, tn, ts1⟩ : LinkEdge)] } tdt tn
          = true := by
        simp [hasLinkTo]
      rw [h1]
      unfold create_backward_link
      rw [h2]
      simp [h3]

lemma countLinkEdges_create (db : List Doc) (sdt sn tdt tn : String) (ts1 : Nat)
    (d : Doc) (hgd : get_doc? db sdt sn = some d) (hl : hasLinkTo d tdt tn = false) :
    countLinkEdges (create_backward_link db sdt sn tdt tn ts1) sdt sn tdt tn = 1 := by
  have hgdF : db.find? (fun x => x.doctype == sdt && x.name == sn) = some d := hgd
  have hp : (d.doctype == sdt && d.name == sn) = true := by
    simpa using List.find?_some hgdF
  have h1 : create_backward_link db sdt sn tdt tn ts1 =
      replaceDoc db sdt sn { d with links := d.links ++ [⟨sdt, sn, tdt, tn, ts1⟩] } := by
    unfold create_backward_link
    rw [hgd]
    simp [hl]
  have h2 : get_doc?
      (replaceDoc db sdt sn { d with links := d.links ++ [⟨sdt, sn, tdt, tn, ts1⟩] })
      sdt sn
      = some { d with links := d.links ++ [⟨sdt, sn, tdt, tn, ts1⟩] } := by
    rw [get_doc?_replaceDoc db sdt sn
      { d with links := d.links ++ [⟨sdt, sn, tdt, tn, ts1⟩] } hp, hgd,
      Option.map_some']
  have hfilter : d.links.filter
      (fun l => l.target_doctype == tdt && l.target_docname == tn) = [] := by
    rw [List.filter_eq_nil_iff]
    intro a ha
    have := (List.any_eq_false.mp hl) a ha
    simpa using this
  rw [h1]
  unfold countLinkEdges
  rw [h2]
  simp [List.filter_append, hfilter]

/-- C6: recordLink (create_backward_link) is idempotent: a second call with
the same arguments is a no-op on the whole store, and starting from a
source document without an edge to the target pair, two calls leave
exactly one matching LinkEdge in its forward-links table. -/
theorem C6_record_link_idempotent :
    (∀ (db : List Doc) (sdt sn tdt tn : String) (ts1 ts2 : Nat),
       create_backward_link (create_backward_link db sdt sn tdt tn ts1) sdt sn tdt tn ts2
         = create_backward_link db sdt sn tdt tn ts1) ∧
    ∀ (db : List Doc) (sdt sn tdt tn : String) (ts1 ts2 : Nat) (d : Doc),
      get_doc? db sdt sn = some d → hasLinkTo d tdt tn = false →
      countLinkEdges
        (create_backward_link (create_backward_link db sdt sn tdt tn ts1) sdt sn tdt tn ts2)
        sdt sn tdt tn = 1 := by
  refine ⟨create_backward_link_twice, ?_⟩
  intro db sdt sn tdt tn ts1 ts2 d hgd hl
  rw [create_backward_link_twice]
  exact countLinkEdges_create db sdt sn tdt tn ts1 d hgd hl

/-- C6 witness: recording the same link twice on a concrete store leaves
exactly one matching edge, and the second call changes nothing. -/
theorem C6_record_link_idempotent_witness :
    countLinkEdges
      (create_backward_link
        (create_backward_link dbC6 "Material Request" "MR-6" "Purchase Requisition" "PR-9" 3)
        "Material Request" "MR-6" "Purchase Requisition" "PR-9" 4)
      "Material Request" "MR-6" "Purchase Requisition" "PR-9" = 1 :=
  C6_record_link_idempotent.2 dbC6 "Material Request" "MR-6" "Purchase Requisition"
    "PR-9" 3 4 mrC6 (by decide) (by decide)

lemma ruleLE_trans (a b c : SupplierRule) (hab : ruleLE a b = true)
    (hbc : ruleLE b c = true) : ruleLE a c = true := by
  simp only [ruleLE, Bool.or_eq_true, Bool.and_eq_true, decide_eq_true_eq] at *
  omega

lemma ruleLE_total (a b : SupplierRule) : (ruleLE a b || ruleLE b a) = true := by
  simp only [ruleLE, Bool.or_eq_true, Bool.and_eq_true, decide_eq_true_eq]
  omega

lemma mergeSort_singleton_eq (le : SupplierRule → SupplierRule → Bool)
    (x : SupplierRule) : [x].mergeSort le = [x] :=
  List.perm_singleton.mp (List.mergeSort_perm [x] le)

/-- C8: get_applicable_rule returns, among the active rules whose half-open
bracket contains the amount, one of lowest priority (ties broken by lowest
amount_from), and none exactly when no active bracket contains the amount;
on the two adjacent brackets of the spec scenario, amount 1000 selects the
upper bracket. -/
theorem C8_applicable_rule :
    (∀ (rules : List SupplierRule) (amt : Int) (r : SupplierRule),
       get_applicable_rule rules amt = some r →
         r ∈ rules ∧ rule_covers amt r = true ∧
           ∀ r2 ∈ rules, rule_covers amt r2 = true →
             r.priority < r2.priority ∨
               (r.priority = r2.priority ∧ r.amount_from ≤ r2.amount_from)) ∧
    (∀ (rules : List SupplierRule) (amt : Int),
       get_applicable_rule rules amt = none ↔
         ∀ r ∈ rules, rule_covers amt r = false) ∧
    get_applicable_rule [ruleC8a, ruleC8b] 1000 = some ruleC8b := by
  refine ⟨?_, ?_, ?_⟩
  case refine_3 =>
    unfold get_applicable_rule
    have hf : [ruleC8a, ruleC8b].filter (rule_covers 1000) = [ruleC8b] := by decide
    rw [hf, mergeSort_singleton_eq]
    rfl
  · intro rules amt r h
    unfold get_applicable_rule at h
    cases hl : (rules.filter (rule_covers amt)).mergeSort ruleLE with
    | nil => rw [hl] at h; exact absurd h (by simp)
    | cons r0 t =>
      rw [hl] at h
      have hr0 : r0 = r := by simpa using h
      subst hr0
      have hmem : r0 ∈ rules.filter (rule_covers amt) := by
        rw [← @List.mem_mergeSort _ ruleLE, hl]
        exact List.mem_cons_self r0 t
      have hmem2 := List.mem_filter.mp hmem
      refine ⟨hmem2.1, hmem2.2, ?_⟩
      intro r2 hr2 hc2
      have hr2s : r2 ∈ r0 :: t := by
        rw [← hl, List.mem_mergeSort]
        exact List.mem_filter.mpr ⟨hr2, hc2⟩
      have hsorted := List.sorted_mergeSort
        (fun a b c => ruleLE_trans a b c)
        ruleLE_total
        (rules.filter (rule_covers amt))
      rw [hl] at hsorted
      rcases List.mem_cons.mp hr2s with hEq | hMem
      · subst hEq
        right
        exact ⟨rfl, le_refl _⟩
      · have := (List.pairwise_cons.mp hsorted).1 r2 hMem
        simpa [ruleLE, Bool.or_eq_true, Bool.and_eq_true, decide_eq_true_eq] using this
  · intro rules amt
    unfold get_applicable_rule
    rw [List.head?_eq_none_iff]
    constructor
    · intro h
      have hperm := List.mergeSort_perm (rules.filter (rule_covers amt)) ruleLE
      rw [h] at hperm
      have hnil : rules.filter (rule_covers amt) = [] := hperm.symm.eq_nil
      intro r hr
      by_contra hc
      have : r ∈ rules.filter (rule_covers amt) :=
        List.mem_filter.mpr ⟨hr, by simpa using hc⟩
      simp [hnil] at this
    · intro h
      have hnil : rules.filter (rule_covers amt) = [] := by
        rw [List.filter_eq_nil_iff]
        intro a ha
        simp [h a ha]
      rw [hnil, List.mergeSort_nil]

/-- C8 witness: with an overlapping low-precedence rule present, amount 500
selects the priority-1 bracket, which is active, contains 500 and beats
the priority-2 rule that also contains it. -/
theorem C8_applicable_rule_witness :
    ruleC8a ∈ [ruleC8a, ruleC8b, ruleC8c] ∧ rule_covers 500 ruleC8a = true ∧
    (ruleC8a.priority < ruleC8c.priority ∨
      (ruleC8a.priority = ruleC8c.priority ∧
        ruleC8a.amount_from ≤ ruleC8c.amount_from)) := by
  have hs : List.Pairwise (fun a b => ruleLE a b = true) [ruleC8a, ruleC8c] := by
    refine List.Pairwise.cons ?_ (List.pairwise_singleton _ _)
    intro x hx
    rw [List.mem_singleton.mp hx]
    decide
  have happ : get_applicable_rule [ruleC8a, ruleC8b, ruleC8c] 500 = some ruleC8a := by
    unfold get_applicable_rule
    have hf : [ruleC8a, ruleC8b, ruleC8c].filter (rule_covers 500)
        = [ruleC8a, ruleC8c] := by decide
    rw [hf, List.mergeSort_of_sorted hs]
    rfl
  have h := C8_applicable_rule.1 [ruleC8a, ruleC8b, ruleC8c] 500 ruleC8a happ
  exact ⟨h.1, h.2.1, h.2.2 ruleC8c (by decide) (by decide)⟩

/-- C5: for a document whose flow step requires a source, validate_step_order
accepts an absent source pair (manual creation), rejects a partial pair
with the both-or-neither error, and with a full pair and an existing
previous flow step rejects a doctype mismatch naming expected against
actual while accepting a match. -/
theorem C5_step_order_gate (flows : List ProcurementFlow) (doc : Doc)
    (f : ProcurementFlow) (step : ProcurementFlowStep)
    (hf : get_active_flow flows = some f)
    (hc : get_current_step f doc.doctype = some step)
    (hr : step.requires_source = true) :
    (doc.source_doctype = none → doc.source_name = none →
       validate_step_order flows doc = .ok ()) ∧
    (∀ sdt, doc.source_doctype = some sdt → doc.source_name = none →
       validate_step_order flows doc = .error .bothOrNeither) ∧
    (∀ sn, doc.source_doctype = none → doc.source_name = some sn →
       validate_step_order flows doc = .error .bothOrNeither) ∧
    ∀ sdt sn prev, doc.source_doctype = some sdt → doc.source_name = some sn →
      get_previous_step f doc.doctype = some prev →
      (sdt ≠ prev.doctype_name →
         validate_step_order flows doc = .error (.wrongSourceType prev.doctype_name sdt)) ∧
      (sdt = prev.doctype_name → validate_step_order flows doc = .ok ()) := by
  refine ⟨?_, ?_, ?_, ?_⟩
  · intro h1 h2
    simp [validate_step_order, hf, hc, hr, h1, h2]
  · intro sdt h1 h2
    simp [validate_step_order, hf, hc, hr, h1, h2]
  · intro sn h1 h2
    simp [validate_step_order, hf, hc, hr, h1, h2]
  · intro sdt sn prev h1 h2 hprev
    constructor
    · intro hne
      simp [validate_step_order, hf, hc, hr, h1, h2, hprev, hne]
    · intro heq
      simp [validate_step_order, hf, hc, hr, h1, h2, hprev, heq]

/-- C5 witness: under the active flow, a Purchase Requisition with only the
source doctype set is rejected both-or-neither; with the matching Material
Request source it passes; with a Request for Quotation source it is
rejected naming the expected Material Request. -/
theorem C5_step_order_gate_witness :
    validate_step_order flowsMain prC5halfPair = .error .bothOrNeither ∧
    validate_step_order flowsMain prC5full = .ok () ∧
    validate_step_order flowsMain prC5wrong =
      .error (.wrongSourceType "Material Request" "Request for Quotation") := by
  refine ⟨?_, ?_, ?_⟩
  · exact (C5_step_order_gate flowsMain prC5halfPair flowF1 stepPR rfl (by decide)
      rfl).2.1 "Material Request" rfl rfl
  · exact ((C5_step_order_gate flowsMain prC5full flowF1 stepPR rfl (by decide)
      rfl).2.2.2 "Material Request" "MR-1" ⟨1, "Material Request", false⟩ rfl rfl
      (by decide)).2 rfl
  · exact ((C5_step_order_gate flowsMain prC5wrong flowF1 stepPR rfl (by decide)
      rfl).2.2.2 "Request for Quotation" "RFQ-1" ⟨1, "Material Request", false⟩ rfl rfl
      (by decide)).1 (by decide)

lemma check_po_items_ok_iff (db : List Doc) (doc : Doc) (isNew : Bool) (rfq : Doc) :
    ∀ l : List LineItem,
      (check_po_items_against_rfq db doc isNew rfq l = .ok () ↔
        ∀ it ∈ l, ∀ ri ∈ rfq.items.find? (fun s => s.item_code == it.item_code),
          it.qty ≤ ri.qty - ri.ordered_qty + existing_po_qty db doc isNew it.item_code) := by
  intro l
  induction l with
  | nil => simp [check_po_items_against_rfq]
  | cons it rest ih =>
    cases hf : rfq.items.find? (fun s => s.item_code == it.item_code) with
    | none =>
      simp only [check_po_items_against_rfq, hf]
      rw [ih]
      constructor
      · intro h x hx ri hri
        rcases List.mem_cons.mp hx with hEq | hMem
        · subst hEq
          rw [hf] at hri
          simp at hri
        · exact h x hMem ri hri
      · intro h x hx ri hri
        exact h x (List.mem_cons_of_mem _ hx) ri hri
    | some ri =>
      simp only [check_po_items_against_rfq, hf]
      by_cases hq : it.qty > ri.qty - ri.ordered_qty + existing_po_qty db doc isNew it.item_code
      · rw [if_pos hq]
        constructor
        · intro h
          simp at h
        · intro h
          have := h it (List.mem_cons_self it rest) ri (by rw [hf]; rfl)
          omega
      · rw [if_neg hq]
        rw [ih]
        constructor
        · intro h x hx ri2 hri2
          rcases List.mem_cons.mp hx with hEq | hMem
          · subst hEq
            rw [hf] at hri2
            simp at hri2
            subst hri2
            omega
          · exact h x hMem ri2 hri2
        · intro h x hx ri2 hri2
          exact h x (List.mem_cons_of_mem _ hx) ri2 hri2

lemma validate_po_eq_check (db : List Doc) (doc : Doc) (isNew : Bool)
    (sqName rfqName : String) (sq rfq : Doc)
    (h1 : doc.doctype = "Purchase Order")
    (h2 : doc.source_doctype = some "Supplier Quotation")
    (h3 : doc.source_name = some sqName)
    (h4 : get_doc? db "Supplier Quotation" sqName = some sq)
    (h5 : sq.source_doctype = some "Request for Quotation")
    (h6 : sq.source_name = some rfqName)
    (h7 : get_doc? db "Request for Quotation" rfqName = some rfq) :
    validate_po_against_rfq db doc isNew
      = check_po_items_against_rfq db doc isNew rfq doc.items := by
  simp [validate_po_against_rfq, h1, h2, h3, h4, h5, h6, h7]

/-- C2 counterexample: on a store whose RFQ line carries a stale cached
ordered_qty of 90 while no Purchase Order exists (dynamic total 0), the
validator rejects a new 50-quantity Purchase Order even though the
dynamically recomputed total would allow it: the gating decision follows
the cache, not the dynamic recomputation, refuting the claim. -/
theorem C2_counterexample :
    validate_po_against_rfq dbC2 poC2 true = .error (.rfqQtyExceeded "ITEM-1" 0) ∧
    calculate_rfq_ordered_quantities_dynamic dbC2 "RFQ-2" "ITEM-1" = 0 ∧
    ((50 : Int) ≤ 100 - calculate_rfq_ordered_quantities_dynamic dbC2 "RFQ-2" "ITEM-1") := by
  refine ⟨?_, by decide, by decide⟩
  decide

/-- C2 amended: the gating decision of validate_po_against_rfq is computed
from the cached ordered_qty on the RFQ line item (available = declared
quantity minus cached ordered_qty plus the stored quantity of the same PO
on an update); the dynamically recomputed total over the Purchase Orders
of the submitted Supplier Quotations is evaluated only inside the
rejection branch, for the diagnostic payload. -/
theorem C2_cache_is_the_gate (db : List Doc) (doc : Doc) (isNew : Bool)
    (sqName rfqName : String) (sq rfq : Doc)
    (h1 : doc.doctype = "Purchase Order")
    (h2 : doc.source_doctype = some "Supplier Quotation")
    (h3 : doc.source_name = some sqName)
    (h4 : get_doc? db "Supplier Quotation" sqName = some sq)
    (h5 : sq.source_doctype = some "Request for Quotation")
    (h6 : sq.source_name = some rfqName)
    (h7 : get_doc? db "Request for Quotation" rfqName = some rfq) :
    validate_po_against_rfq db doc isNew = .ok () ↔
      ∀ it ∈ doc.items, ∀ ri ∈ rfq.items.find? (fun s => s.item_code == it.item_code),
        it.qty ≤ ri.qty - ri.ordered_qty + existing_po_qty db doc isNew it.item_code := by
  rw [validate_po_eq_check db doc isNew sqName rfqName sq rfq h1 h2 h3 h4 h5 h6 h7]
  exact check_po_items_ok_iff db doc isNew rfq doc.items

/-- C2 witness: on the stale-cache store, a 10-quantity Purchase Order is
below the cache-based available quantity of 10 and passes the gate. -/
theorem C2_cache_is_the_gate_witness :
    validate_po_against_rfq dbC2 poC2small true = .ok () :=
  (C2_cache_is_the_gate dbC2 poC2small true "SQ-21" "RFQ-2" sqC2 rfqC2
    rfl rfl rfl (by decide) rfl rfl (by decide)).mpr (by decide)

/-- C3: competing quotations share the RFQ quantity.  Concretely, on the
scenario store (RFQ of 100, quotations SQ-1 and SQ-2), the full Purchase
Order validate pipeline accepts PO-A of 60 via SQ-1; after PO-A is
submitted (store insert, backward link, ordered-quantity hook), the same
pipeline rejects PO-B of 50 via SQ-2 with the RFQ quantity error carrying
the dynamic total 60.  Generally, whenever the cached ordered_qty of an
RFQ line equals the dynamically recomputed total over all non-cancelled
Purchase Orders of the submitted quotations of that RFQ, a new Purchase
Order passing validate_po_against_rfq keeps the total within the declared
RFQ quantity. -/
theorem C3_po_tracks_original_rfq :
    full_po_validate [] dbC3 poC3a true = .ok () ∧
    full_po_validate [] dbC3After poC3b true = .error (.rfqQtyExceeded "ITEM-1" 60) ∧
    ∀ (db : List Doc) (doc : Doc) (sqName rfqName : String) (sq rfq : Doc)
      (it ri : LineItem),
      doc.doctype = "Purchase Order" →
      doc.source_doctype = some "Supplier Quotation" →
      doc.source_name = some sqName →
      get_doc? db "Supplier Quotation" sqName = some sq →
      sq.source_doctype = some "Request for Quotation" →
      sq.source_name = some rfqName →
      get_doc? db "Request for Quotation" rfqName = some rfq →
      it ∈ doc.items →
      rfq.items.find? (fun s => s.item_code == it.item_code) = some ri →
      ri.ordered_qty = calculate_rfq_ordered_quantities_dynamic db rfqName it.item_code →
      validate_po_against_rfq db doc true = .ok () →
      calculate_rfq_ordered_quantities_dynamic db rfqName it.item_code + it.qty ≤ ri.qty := by
  refine ⟨by decide, by decide, ?_⟩
  intro db doc sqName rfqName sq rfq it ri h1 h2 h3 h4 h5 h6 h7 hit hfind hcache hok
  rw [validate_po_eq_check db doc true sqName rfqName sq rfq h1 h2 h3 h4 h5 h6 h7] at hok
  have hb := (check_po_items_ok_iff db doc true rfq doc.items).mp hok it hit ri
    (by rw [hfind]; rfl)
  have hex : existing_po_qty db doc true it.item_code = 0 := rfl
  rw [hex] at hb
  omega

/-- C3 witness: the general bound instantiated after the submission of
PO-A: a Purchase Order of 40 via SQ-2 passes the gate, and the dynamic
total 60 plus the new 40 stays within the declared 100. -/
theorem C3_po_tracks_original_rfq_witness :
    calculate_rfq_ordered_quantities_dynamic dbC3After "RFQ-1" "ITEM-1" +
      ({ item_code := "ITEM-1", qty := 40 } : LineItem).qty ≤ riC3After.qty := by
  exact C3_po_tracks_original_rfq.2.2 dbC3After poC3c "SQ-2" "RFQ-1" sqC3b rfqC3Updated
    { item_code := "ITEM-1", qty := 40 } riC3After rfl rfl rfl (by decide) rfl rfl
    (by decide) (by decide) (by decide) (by decide) (by decide)

lemma check_quantity_items_ok_iff (db : List Doc) (tdt tname tgtDt : String)
    (excl : Option String) (srcItems : List LineItem) :
    ∀ l : List LineItem,
      (∀ it ∈ l, (srcItems.find? fun s => s.item_code == it.item_code).isSome) →
      (check_quantity_items db tdt tname tgtDt excl srcItems l = .ok () ↔
        ∀ it ∈ l, ∀ s ∈ srcItems.find? (fun s2 => s2.item_code == it.item_code),
          it.qty ≤ s.qty - get_consumed_qty db tdt tname tgtDt excl it.item_code) := by
  intro l
  induction l with
  | nil => intro _; simp [check_quantity_items]
  | cons it rest ih =>
    intro hall
    obtain ⟨s, hs⟩ := Option.isSome_iff_exists.mp (hall it (List.mem_cons_self it rest))
    simp only [check_quantity_items, hs]
    by_cases hq : it.qty > s.qty - get_consumed_qty db tdt tname tgtDt excl it.item_code
    · rw [if_pos hq]
      constructor
      · intro h
        simp at h
      · intro h
        have := h it (List.mem_cons_self it rest) s (by rw [hs]; rfl)
        omega
    · rw [if_neg hq]
      rw [ih fun x hx => hall x (List.mem_cons_of_mem _ hx)]
      constructor
      · intro h x hx s2 hs2
        rcases List.mem_cons.mp hx with hEq | hMem
        · subst hEq
          rw [hs] at hs2
          simp at hs2
          subst hs2
          omega
        · exact h x hMem s2 hs2
      · intro h x hx s2 hs2
        exact h x (List.mem_cons_of_mem _ hx) s2 hs2

lemma validate_quantity_eq_check (db : List Doc) (doc : Doc) (isNew : Bool)
    (sdt sname tdt tname : String) (src0 tsrc : Doc)
    (hsd : doc.source_doctype = some sdt) (hsn : doc.source_name = some sname)
    (hnrfq : doc.doctype ≠ "Request for Quotation")
    (hsup : doc.doctype = "Supplier Quotation" ∧ sdt = "Request for Quotation" →
            validate_supplier_in_rfq db doc sname = .ok ())
    (hsrc : get_doc? db sdt sname = some src0)
    (htrack : resolveTracking db doc sdt sname src0 = .ok (tdt, tname, tsrc))
    (hsf : (get_items_field_name sdt).isSome = true)
    (htf : (get_items_field_name doc.doctype).isSome = true) :
    validate_quantity_limits db doc isNew
      = check_quantity_items db tdt tname doc.doctype
          (if isNew then none else some doc.name) tsrc.items doc.items := by
  obtain ⟨a, ha⟩ := Option.isSome_iff_exists.mp hsf
  obtain ⟨b, hb⟩ := Option.isSome_iff_exists.mp htf
  by_cases hc : doc.doctype = "Supplier Quotation" ∧ sdt = "Request for Quotation"
  · simp only [validate_quantity_limits, hsd, hsn, if_neg hnrfq, if_pos hc, hsup hc,
      hsrc, htrack, ha, hb]
  · simp only [validate_quantity_limits, hsd, hsn, if_neg hnrfq, if_neg hc,
      hsrc, htrack, ha, hb]

/-- C1 counterexample: a Request for Quotation with both source fields set,
requesting 50 of ITEM-1 from a Purchase Requisition that declared 10 with
nothing consumed by siblings, passes the full validate hook instead of
being rejected, refuting the universally quantified claim. -/
theorem C1_counterexample :
    get_consumed_qty dbC1 "Purchase Requisition" "PR-1" "Request for Quotation"
      none "ITEM-1" = 0 ∧
    ((50 : Int) > 10 - 0) ∧
    validate_procurement_document flowsMain dbC1 rfqC1 true = .ok () := by
  exact ⟨by decide, by decide, by decide⟩

/-- C1 amended: for a document that is not itself a Request for Quotation,
with both source fields set, the supplier sub-check passing, the source
document stored, the tracking source resolving (the immediate source, or
the originating RFQ for a Purchase Order sourced from a Supplier
Quotation), both doctypes carrying an item field, and every item code
present on the tracking source: the quantity check passes exactly when
each requested quantity stays within the tracking-source declared quantity
of its item code minus the quantity consumed by non-cancelled documents of
the same doctype referencing the tracking source, the stored version of
the document itself excluded on an update. -/
theorem C1_quantity_gate (db : List Doc) (doc : Doc) (isNew : Bool)
    (sdt sname tdt tname : String) (src0 tsrc : Doc)
    (hsd : doc.source_doctype = some sdt) (hsn : doc.source_name = some sname)
    (hnrfq : doc.doctype ≠ "Request for Quotation")
    (hsup : doc.doctype = "Supplier Quotation" ∧ sdt = "Request for Quotation" →
            validate_supplier_in_rfq db doc sname = .ok ())
    (hsrc : get_doc? db sdt sname = some src0)
    (htrack : resolveTracking db doc sdt sname src0 = .ok (tdt, tname, tsrc))
    (hsf : (get_items_field_name sdt).isSome = true)
    (htf : (get_items_field_name doc.doctype).isSome = true)
    (hitems : ∀ it ∈ doc.items,
      (tsrc.items.find? fun s => s.item_code == it.item_code).isSome) :
    validate_quantity_limits db doc isNew = .ok () ↔
      ∀ it ∈ doc.items, ∀ s ∈ tsrc.items.find? (fun s2 => s2.item_code == it.item_code),
        it.qty ≤ s.qty -
          get_consumed_qty db tdt tname doc.doctype
            (if isNew then none else some doc.name) it.item_code := by
  rw [validate_quantity_eq_check db doc isNew sdt sname tdt tname src0 tsrc
    hsd hsn hnrfq hsup hsrc htrack hsf htf]
  exact check_quantity_items_ok_iff db tdt tname doc.doctype
    (if isNew then none else some doc.name) tsrc.items doc.items hitems

/-- C1 witness: a Purchase Requisition of 4 from a Material Request that
declared 10 with nothing consumed passes the quantity check. -/
theorem C1_quantity_gate_witness :
    validate_quantity_limits dbC1w prC1w true = .ok () :=
  (C1_quantity_gate dbC1w prC1w true "Material Request" "MR-1" "Material Request"
    "MR-1" mrC5 mrC5 rfl rfl (by decide) (fun hc => absurd hc.1 (by decide))
    (by decide) (by decide) (by decide) (by decide) (by decide)).mpr (by decide)
